import Mathlib

/-!
# Formal model of the `db` package

Shallow embedding of `db/db_provider.py` and `db/chat_history.py`:
a chat-history store (messages and per-user session state) behind a
swappable database-provider abstraction with a process-wide registry.

Modelling conventions:

* SQLite engine-side timestamps (`strftime('%Y-%m-%d %H:%M:%f','now')`
  strings, ordered by string comparison which agrees with chronological
  order for this fixed format) are modelled as natural numbers; each
  operation that lets the engine stamp a row takes the clock value `now`
  as an explicit argument.
* The content of a database file is a `DBState` holding the two tables
  created by `init_db`.  An open `sqlite3` connection is a pair of a
  committed state and a pending (uncommitted) state; `commit` publishes
  the pending state, `rollback` discards it.
* Filesystem side effects are outside the model: `os.makedirs` in
  `SQLiteProvider.__init__` and the `exists` key of the SQLite
  `get_connection_info` (a live `os.path.exists` probe) are omitted.
* Python exceptions are modelled with `Except DBError`.  Functions
  written in state-passing style return the (unchanged or updated)
  global state; a raise happens before any global assignment in the
  source, so the error branches carry no state update.
* SQL statements are not parsed: each query issued by `chat_history.py`
  is embedded by its semantics on `DBState`.  `ORDER BY` is modelled as
  a stable sort (ties keep table scan order, which is rowid/insertion
  order for these tables).
-/

namespace Aila

/-- Engine-side timestamp (see module conventions above). -/
abbrev Timestamp := Nat

/-- Python exceptions raised by the `db` package. -/
inductive DBError where
  | keyError (msg : String)
  | valueError (msg : String)
  | notImplementedError (msg : String)
deriving Repr, DecidableEq

/-- A row of the `messages` table created by `init_db`:
`id INTEGER PRIMARY KEY AUTOINCREMENT, user_id, role, content, created_at`. -/
structure MessageRow where
  id : Nat
  user_id : String
  role : String
  content : String
  created_at : Timestamp
deriving Repr, DecidableEq

/-- A row of the `sessions` table created by `init_db`:
`user_id TEXT PRIMARY KEY, state, incident_type, emotion, updated_at`.
The three label columns are nullable (`set_session_state` stores SQL NULL
for arguments left at their `None` default). -/
structure SessionRow where
  user_id : String
  state : Option String
  incident_type : Option String
  emotion : Option String
  updated_at : Timestamp
deriving Repr, DecidableEq

/-- Content of one SQLite database file: the two tables of the schema.
`nextMessageId` is the AUTOINCREMENT counter for `messages.id`. -/
structure DBState where
  messages : List MessageRow
  nextMessageId : Nat
  sessions : List SessionRow
deriving Repr, DecidableEq

/-- A fresh database file: no rows, ids start at 1. -/
def DBState.empty : DBState :=
  { messages := [], nextMessageId := 1, sessions := [] }

/-- An open `sqlite3` connection: the state last committed to the file and
the pending working state of the implicit transaction.  `foreign_keys`
records the `PRAGMA foreign_keys = ON` issued on every fresh connection. -/
structure Conn where
  committed : DBState
  pending : DBState
  foreign_keys : Bool
deriving Repr, DecidableEq

/-- `sqlite3.connect(db_path)` followed by `PRAGMA foreign_keys = ON`
(`SQLiteProvider.connect`, fresh-connection branch): the connection starts
from the on-disk state with nothing pending. -/
def openConn (disk : DBState) : Conn :=
  { committed := disk, pending := disk, foreign_keys := true }

/-- `conn.commit()`: publish the pending state. -/
def Conn.commit (c : Conn) : Conn := { c with committed := c.pending }

/-- `conn.rollback()`: discard the pending transaction. -/
def Conn.rollback (c : Conn) : Conn := { c with pending := c.committed }

/-- `SQLiteProvider`: path plus the `_connection` slot (`None` until the
lazy `connect`).  The constructor argument `auto_create_dir` only triggers
`os.makedirs`, a filesystem effect outside the model, and is ignored. -/
structure SQLiteProvider where
  db_path : String
  _connection : Option Conn
deriving Repr, DecidableEq

/-- `SQLiteProvider.__init__(db_path, auto_create_dir=True)`. -/
def SQLiteProvider.init (db_path : String) (auto_create_dir : Bool := true) :
    SQLiteProvider :=
  { db_path := db_path, _connection := none }

/-- `create_sqlite_provider` factory function. -/
def create_sqlite_provider (db_path : String) (auto_create_dir : Bool := true) :
    SQLiteProvider :=
  SQLiteProvider.init db_path auto_create_dir

/-- `SQLiteProvider.connect`: open lazily on first use, afterwards return
the held connection.  `disk` is the current content of the file at
`db_path`, read only when a fresh connection is opened. -/
def SQLiteProvider.connect (p : SQLiteProvider) (disk : DBState) :
    Conn × SQLiteProvider :=
  match p._connection with
  | some c => (c, p)
  | none =>
    let c := openConn disk
    (c, { p with _connection := some c })

/-- `SQLiteProvider.close`: drop the connection (a no-op when already
closed). -/
def SQLiteProvider.close (p : SQLiteProvider) : SQLiteProvider :=
  { p with _connection := none }

/-- `SQLiteProvider.get_connection`, the scoped connection context manager:
acquire (opening if needed), run the caller's operation `op` on the
connection; on normal return commit, on exception rollback and re-raise;
in both cases the connection is kept (never closed here).  `op` consumes
the yielded connection and returns a value plus the connection as the
operation left it, or raises. -/
def SQLiteProvider.get_connection {α : Type} (p : SQLiteProvider) (disk : DBState)
    (op : Conn → Except DBError (α × Conn)) :
    Except DBError α × SQLiteProvider :=
  let cp := p.connect disk
  match op cp.1 with
  | .ok (a, c) => (.ok a, { cp.2 with _connection := some c.commit })
  | .error e => (.error e, { cp.2 with _connection := some cp.1.rollback })

/-- `PostgreSQLProvider` fields, assigned by `__init__` before it raises. -/
structure PostgreSQLProvider where
  host : String
  port : Nat
  database : String
  user : String
  password : String
deriving Repr, DecidableEq

/-- `PostgreSQLProvider.__init__`: assigns the fields (and
`_connection = None`), then unconditionally raises `NotImplementedError`.
Returned as the partially initialised object together with the raise. -/
def PostgreSQLProvider.init (host : String) (port : Nat)
    (database : String) (user : String) (password : String) :
    PostgreSQLProvider × Except DBError Unit :=
  ({ host := host, port := port, database := database, user := user,
     password := password },
   .error (.notImplementedError
     "PostgreSQL provider not yet implemented. Install psycopg2 and implement connection logic."))

/-- `MySQLProvider` fields, assigned by `__init__` before it raises. -/
structure MySQLProvider where
  host : String
  port : Nat
  database : String
  user : String
  password : String
deriving Repr, DecidableEq

/-- `MySQLProvider.__init__`: assigns the fields (and `_connection = None`),
then unconditionally raises `NotImplementedError`. -/
def MySQLProvider.init (host : String) (port : Nat)
    (database : String) (user : String) (password : String) :
    MySQLProvider × Except DBError Unit :=
  ({ host := host, port := port, database := database, user := user,
     password := password },
   .error (.notImplementedError
     "MySQL provider not yet implemented. Install mysql-connector-python and implement connection logic."))

/-- A `DBProvider` instance: one of the three concrete backends. -/
inductive DBProvider where
  | sqlite (p : SQLiteProvider)
  | postgresql (p : PostgreSQLProvider)
  | mysql (p : MySQLProvider)
deriving Repr, DecidableEq

/-- The dictionary returned by the `get_connection_info` implementations.
The SQLite variant's live `exists` probe is omitted (filesystem). -/
structure ConnectionInfo where
  type : String
  db_path : Option String := none
  host : Option String := none
  port : Option Nat := none
  database : Option String := none
  user : Option String := none
deriving Repr, DecidableEq

/-- `get_connection_info` of each backend: descriptive metadata, no
connection required. -/
def DBProvider.get_connection_info : DBProvider → ConnectionInfo
  | .sqlite p => { type := "sqlite", db_path := some p.db_path }
  | .postgresql p =>
    { type := "postgresql", host := some p.host, port := some p.port,
      database := some p.database, user := some p.user }
  | .mysql p =>
    { type := "mysql", host := some p.host, port := some p.port,
      database := some p.database, user := some p.user }

/-- Configuration dictionary accepted by `create_provider_from_config`;
every key may be absent. -/
structure ProviderConfig where
  type : Option String := none
  db_path : Option String := none
  auto_create_dir : Option Bool := none
  host : Option String := none
  port : Option Nat := none
  database : Option String := none
  user : Option String := none
  password : Option String := none
deriving Repr, DecidableEq

/-- Python `str.lower()` (ASCII case folding), defined over the character
list of the string. -/
def pyLower (s : String) : String := ⟨s.data.map Char.toLower⟩

/-- `create_provider_from_config`: dispatch on `config.get("type", "").lower()`;
`config[k]` on an absent required key raises `KeyError(k)`; a recognised
type calls the matching constructor, whose own raise (the stubs'
`NotImplementedError`) propagates unchanged; anything else raises
`ValueError`. -/
def create_provider_from_config (config : ProviderConfig) :
    Except DBError DBProvider :=
  let provider_type := pyLower (config.type.getD "")
  if provider_type = "sqlite" then
    match config.db_path with
    | none => .error (.keyError "db_path")
    | some path =>
      .ok (.sqlite (SQLiteProvider.init path (config.auto_create_dir.getD true)))
  else if provider_type = "postgresql" then
    match config.host with
    | none => .error (.keyError "host")
    | some host =>
      match config.database with
      | none => .error (.keyError "database")
      | some database =>
        match config.user with
        | none => .error (.keyError "user")
        | some user =>
          match config.password with
          | none => .error (.keyError "password")
          | some password =>
            match PostgreSQLProvider.init host (config.port.getD 5432)
                database user password with
            | (_, .error e) => .error e
            | (p, .ok _) => .ok (.postgresql p)
  else if provider_type = "mysql" then
    match config.host with
    | none => .error (.keyError "host")
    | some host =>
      match config.database with
      | none => .error (.keyError "database")
      | some database =>
        match config.user with
        | none => .error (.keyError "user")
        | some user =>
          match config.password with
          | none => .error (.keyError "password")
          | some password =>
            match MySQLProvider.init host (config.port.getD 3306)
                database user password with
            | (_, .error e) => .error e
            | (p, .ok _) => .ok (.mysql p)
  else
    .error (.valueError ("Unknown provider type: " ++ provider_type))

/-! ## Provider registry (`chat_history.py` module-level state) -/

/-- Python `dict` lookup `d.get(k)` on a string-keyed insertion-ordered
dictionary represented as an association list. -/
def dictGet? {β : Type} : List (String × β) → String → Option β
  | [], _ => none
  | kv :: rest, k => if kv.1 = k then some kv.2 else dictGet? rest k

/-- Python `dict` assignment `d[k] = v`: replace in place when the key is
present (keeping its position), else append in insertion order. -/
def dictSet {β : Type} : List (String × β) → String → β → List (String × β)
  | [], k, v => [(k, v)]
  | kv :: rest, k, v =>
    if kv.1 = k then (k, v) :: rest else kv :: dictSet rest k v

/-- The module-level globals of `chat_history.py`: the `_PROVIDERS` table
and the `_DEFAULT_PROVIDER` name. -/
structure RegistryState where
  _PROVIDERS : List (String × DBProvider)
  _DEFAULT_PROVIDER : String
deriving Repr, DecidableEq

/-- `DEFAULT_DB_PATH` (computed from the module location in the source;
the concrete string is irrelevant to the registry semantics). -/
def DEFAULT_DB_PATH : String := "data/chat_history.db"

/-- The registry as seeded at import time:
`_PROVIDERS["default"] = create_sqlite_provider(DEFAULT_DB_PATH)` and
`_DEFAULT_PROVIDER = "default"`. -/
def initialRegistry : RegistryState :=
  { _PROVIDERS := [("default", .sqlite (create_sqlite_provider DEFAULT_DB_PATH))],
    _DEFAULT_PROVIDER := "default" }

/-- `get_default_provider`. -/
def get_default_provider (R : RegistryState) : String :=
  R._DEFAULT_PROVIDER

/-- `list_providers`: name → connection info for every registered provider. -/
def list_providers (R : RegistryState) : List (String × ConnectionInfo) :=
  R._PROVIDERS.map (fun kv => (kv.1, kv.2.get_connection_info))

/-- `set_default_provider`: raise `KeyError` when the name is not
registered (the global is untouched), otherwise repoint the default. -/
def set_default_provider (name : String) (R : RegistryState) :
    Except DBError RegistryState :=
  if (dictGet? R._PROVIDERS name).isSome then
    .ok { R with _DEFAULT_PROVIDER := name }
  else
    .error (.keyError ("Provider not registered: " ++ name))

/-- `register_provider`: insert/overwrite the mapping, then optionally
`set_default_provider(name)`. -/
def register_provider (name : String) (provider : DBProvider)
    (make_default : Bool) (R : RegistryState) : Except DBError RegistryState :=
  let R' := { R with _PROVIDERS := dictSet R._PROVIDERS name provider }
  if make_default then set_default_provider name R' else .ok R'

/-- Python truthiness of an `Optional[str]`: `None` and `""` are falsy. -/
def truthy : Option String → Bool
  | none => false
  | some s => !(s == "")

/-- `_resolve_provider(db_path, provider)`: explicit path (builds a
throwaway SQLite provider) > registered name (KeyError when unknown) >
current default.  The function only reads the globals, so the returned
registry state is the input state in every branch. -/
def _resolve_provider (db_path : Option String) (provider : Option String)
    (R : RegistryState) : Except DBError (DBProvider × RegistryState) :=
  if truthy db_path then
    .ok (.sqlite (create_sqlite_provider (db_path.getD "")), R)
  else if truthy provider then
    match dictGet? R._PROVIDERS (provider.getD "") with
    | none => .error (.keyError ("Provider not registered: " ++ provider.getD ""))
    | some p => .ok (p, R)
  else
    match dictGet? R._PROVIDERS R._DEFAULT_PROVIDER with
    | none => .error (.keyError R._DEFAULT_PROVIDER)
    | some p => .ok (p, R)

/-! ## Chat-history operations (semantics of the issued SQL on `DBState`) -/

/-- Stable insertion used to model SQL `ORDER BY`: place `a` before the
first element it compares `le` to, keeping earlier elements first. -/
def orderedInsertBy {α : Type} (le : α → α → Bool) (a : α) :
    List α → List α
  | [] => [a]
  | b :: l => if le a b then a :: b :: l else b :: orderedInsertBy le a l

/-- Stable sort modelling SQL `ORDER BY` over the table scan (rows are
scanned in rowid order; equal keys keep that order). -/
def stableSortBy {α : Type} (le : α → α → Bool) : List α → List α
  | [] => []
  | a :: l => orderedInsertBy le a (stableSortBy le l)

/-- `ORDER BY created_at ASC` comparison. -/
def msgLe (a b : MessageRow) : Bool := a.created_at ≤ b.created_at

/-- `save_message` body:
`INSERT INTO messages (user_id, role, content) VALUES (?, ?, ?)`; the
engine assigns the AUTOINCREMENT id and stamps `created_at` with `now`. -/
def save_message (user_id role content : String) (now : Timestamp)
    (db : DBState) : DBState :=
  { db with
    messages := db.messages ++
      [{ id := db.nextMessageId, user_id := user_id, role := role,
         content := content, created_at := now }],
    nextMessageId := db.nextMessageId + 1 }

/-- `get_history` body:
`SELECT ... FROM messages WHERE user_id = ? ORDER BY created_at ASC LIMIT ?`
(the Python wraps each returned row into a dict with the same five
fields, modelled as the row itself). -/
def get_history (user_id : String) (limit : Nat) (db : DBState) :
    List MessageRow :=
  (stableSortBy msgLe (db.messages.filter (fun m => m.user_id == user_id))).take
    limit

/-- The effect of `set_session_state`'s statement
`INSERT INTO sessions ... ON CONFLICT(user_id) DO UPDATE SET
state=excluded.state, incident_type=excluded.incident_type,
emotion=excluded.emotion, updated_at=excluded.updated_at`
on the `sessions` table. -/
def upsertSession (r : SessionRow) (db : DBState) : DBState :=
  if db.sessions.any (fun x => x.user_id == r.user_id) then
    { db with sessions :=
        db.sessions.map (fun x => if x.user_id == r.user_id then r else x) }
  else
    { db with sessions := db.sessions ++ [r] }

/-- `set_session_state(user_id, state=None, incident_type=None, emotion=None)`:
the upsert above with the caller's values, `updated_at` stamped `now`. -/
def set_session_state (user_id : String)
    (state incident_type emotion : Option String) (now : Timestamp)
    (db : DBState) : DBState :=
  upsertSession
    { user_id := user_id, state := state, incident_type := incident_type,
      emotion := emotion, updated_at := now } db

/-- The record returned by `get_session_state`. -/
structure SessionRecord where
  user_id : String
  state : Option String
  incident_type : Option String
  emotion : Option String
  updated_at : Option Timestamp
deriving Repr, DecidableEq

/-- `get_session_state` body:
`SELECT ... FROM sessions WHERE user_id = ?` via `fetch_one` (first row in
scan order), defaulting every optional field to `None` when no row
matches. -/
def get_session_state (user_id : String) (db : DBState) : SessionRecord :=
  match db.sessions.find? (fun x => x.user_id == user_id) with
  | none =>
    { user_id := user_id, state := none, incident_type := none,
      emotion := none, updated_at := none }
  | some r =>
    { user_id := r.user_id, state := r.state, incident_type := r.incident_type,
      emotion := r.emotion, updated_at := some r.updated_at }

/-- Retrieval order of `get_history`: strictly earlier `created_at`, or
equal `created_at` with strictly smaller (auto-incremented, hence
insertion-ordered) `id`. -/
def msgOrder (a b : MessageRow) : Prop :=
  a.created_at < b.created_at ∨
    (a.created_at = b.created_at ∧ a.id < b.id)

/-- The `sessions` primary-key invariant: at most one row per `user_id`. -/
def SessionsUnique (l : List SessionRow) : Prop :=
  ∀ u : String, l.countP (fun x => x.user_id == u) ≤ 1

/-! ## Helper lemmas -/

theorem dictGet?_dictSet {β : Type} (l : List (String × β)) (k d : String)
    (v : β) :
    dictGet? (dictSet l k v) d = if d = k then some v else dictGet? l d := by
  induction l with
  | nil =>
    by_cases h : d = k
    · subst h
      simp [dictSet, dictGet?]
    · have h' : ¬k = d := fun e => h e.symm
      simp [dictSet, dictGet?, h, h']
  | cons kv rest ih =>
    by_cases hk : kv.1 = k
    · by_cases hd : d = k
      · subst hd
        simp [dictSet, dictGet?, hk]
      · have h' : ¬k = d := fun e => hd e.symm
        simp [dictSet, dictGet?, hk, hd, h']
    · by_cases hd : d = k
      · subst hd
        simp [dictSet, dictGet?, hk, ih]
      · simp [dictSet, dictGet?, hk, hd, ih]

/-! ## Claim theorems -/

/-- C1: provider resolution precedence is explicit path > explicit name >
current default.  A (truthy) explicit path builds a brand-new, unconnected
SQLite backend regardless of any name argument; a (truthy) explicit name
is looked up in the registry and raises `KeyError` when unregistered;
with neither argument the backend registered under the current default
name is returned.  Every resolution leaves the registry state — hence
`list_providers` and `get_default_provider` — unchanged. -/
theorem resolve_provider_precedence :
    (∀ (path : String) (pr : Option String) (R : RegistryState), path ≠ "" →
      _resolve_provider (some path) pr R =
        .ok (.sqlite (create_sqlite_provider path), R) ∧
      (create_sqlite_provider path)._connection = none) ∧
    (∀ (name : String) (dp : Option String) (R : RegistryState),
      truthy dp = false → name ≠ "" →
      _resolve_provider dp (some name) R =
        (match dictGet? R._PROVIDERS name with
         | some p => .ok (p, R)
         | none =>
           .error (.keyError ("Provider not registered: " ++ name)))) ∧
    (∀ (R : RegistryState) (p : DBProvider),
      dictGet? R._PROVIDERS R._DEFAULT_PROVIDER = some p →
      _resolve_provider none none R = .ok (p, R)) ∧
    (∀ (dp pr : Option String) (R : RegistryState) (b : DBProvider)
       (R' : RegistryState), _resolve_provider dp pr R = .ok (b, R') →
      R' = R ∧ list_providers R' = list_providers R ∧
      get_default_provider R' = get_default_provider R) := by
  refine ⟨?_, ?_, ?_, ?_⟩
  · intro path pr R h
    exact ⟨by simp [_resolve_provider, truthy, h], rfl⟩
  · intro name dp R hdp hn
    have hnb : truthy (some name) = true := by simp [truthy, hn]
    cases hm : dictGet? R._PROVIDERS name <;>
      simp [_resolve_provider, hdp, hnb, hm]
  · intro R p hm
    simp [_resolve_provider, truthy, hm]
  · intro dp pr R b R' h
    unfold _resolve_provider at h
    split at h
    · simp only [Except.ok.injEq, Prod.mk.injEq] at h
      obtain ⟨-, rfl⟩ := h
      exact ⟨rfl, rfl, rfl⟩
    · split at h
      · split at h
        · cases h
        · simp only [Except.ok.injEq, Prod.mk.injEq] at h
          obtain ⟨-, rfl⟩ := h
          exact ⟨rfl, rfl, rfl⟩
      · split at h
        · cases h
        · simp only [Except.ok.injEq, Prod.mk.injEq] at h
          obtain ⟨-, rfl⟩ := h
          exact ⟨rfl, rfl, rfl⟩

/-- Witness for C1 at concrete inputs: an explicit path wins over the name
`"default"`, and with neither argument the seeded default backend comes
back; the registry state is returned unchanged both times. -/
theorem resolve_provider_precedence_witness :
    _resolve_provider (some "/tmp/a.db") (some "default") initialRegistry =
      .ok (.sqlite (create_sqlite_provider "/tmp/a.db"), initialRegistry) ∧
    _resolve_provider none none initialRegistry =
      .ok (.sqlite (create_sqlite_provider DEFAULT_DB_PATH), initialRegistry) :=
  ⟨(resolve_provider_precedence.1 "/tmp/a.db" (some "default") initialRegistry
      (by decide)).1,
   resolve_provider_precedence.2.2.1 initialRegistry _ (by decide)⟩

/-- C10: `_resolve_provider` treats empty strings as absent (Python
falsiness): `db_path=""` does not create a path-scoped backend but falls
through to the name tier, and `provider=""` falls through to the current
default instead of raising `KeyError` for the empty name. -/
theorem resolve_provider_empty_strings_falsy :
    (∀ (pr : Option String) (R : RegistryState),
      _resolve_provider (some "") pr R = _resolve_provider none pr R) ∧
    (∀ (dp : Option String) (R : RegistryState),
      _resolve_provider dp (some "") R = _resolve_provider dp none R) ∧
    (∀ (R : RegistryState) (p : DBProvider),
      dictGet? R._PROVIDERS R._DEFAULT_PROVIDER = some p →
      _resolve_provider (some "") (some "") R = .ok (p, R)) := by
  refine ⟨?_, ?_, ?_⟩
  · intro pr R
    simp [_resolve_provider, truthy]
  · intro dp R
    simp [_resolve_provider, truthy]
  · intro R p hm
    simp [_resolve_provider, truthy, hm]

/-- Witness for C10: with both arguments the empty string on the seeded
registry, resolution returns the default backend rather than an error. -/
theorem resolve_provider_empty_strings_falsy_witness :
    _resolve_provider (some "") (some "") initialRegistry =
      .ok (.sqlite (create_sqlite_provider DEFAULT_DB_PATH), initialRegistry) :=
  resolve_provider_empty_strings_falsy.2.2 initialRegistry _ (by decide)

/-- C6: `register_provider(name, p, make_default := true)` succeeds and
afterwards `get_default_provider` returns `name`; `set_default_provider`
on an unregistered name raises `KeyError` — the raise happens before the
global is assigned, so in this state-passing encoding the error branch
carries no state change and the default pointer stays as it was.  The
invariant "the default name resolves to a registered handle" is preserved
by every successful registry operation. -/
theorem registry_default_invariant :
    (∀ (name : String) (p : DBProvider) (R : RegistryState),
      register_provider name p true R =
        .ok { _PROVIDERS := dictSet R._PROVIDERS name p,
              _DEFAULT_PROVIDER := name } ∧
      get_default_provider
        { _PROVIDERS := dictSet R._PROVIDERS name p,
          _DEFAULT_PROVIDER := name } = name) ∧
    (∀ (name : String) (R : RegistryState),
      dictGet? R._PROVIDERS name = none →
      set_default_provider name R =
        .error (.keyError ("Provider not registered: " ++ name))) ∧
    (∀ (name : String) (p : DBProvider) (mk : Bool) (R R' : RegistryState),
      (dictGet? R._PROVIDERS R._DEFAULT_PROVIDER).isSome →
      register_provider name p mk R = .ok R' →
      (dictGet? R'._PROVIDERS R'._DEFAULT_PROVIDER).isSome) ∧
    (∀ (name : String) (R R' : RegistryState),
      set_default_provider name R = .ok R' →
      (dictGet? R'._PROVIDERS R'._DEFAULT_PROVIDER).isSome) := by
  refine ⟨?_, ?_, ?_, ?_⟩
  · intro name p R
    refine ⟨?_, rfl⟩
    simp [register_provider, set_default_provider, dictGet?_dictSet]
  · intro name R h
    simp [set_default_provider, h]
  · intro name p mk R R' hinv h
    unfold register_provider at h
    cases mk with
    | false =>
      simp only [Bool.false_eq_true, if_false, Except.ok.injEq] at h
      subst h
      by_cases hd : R._DEFAULT_PROVIDER = name <;>
        simp [dictGet?_dictSet, hd] <;> simpa using hinv
    | true =>
      simp only [if_true] at h
      unfold set_default_provider at h
      split at h
      · simp only [Except.ok.injEq] at h
        subst h
        simp [dictGet?_dictSet]
      · cases h
  · intro name R R' h
    unfold set_default_provider at h
    split at h
    · next hs =>
      simp only [Except.ok.injEq] at h
      subst h
      simpa using hs
    · cases h

/-- Witness for C6: registering `"x"` as default on the seeded registry
makes it the default, and `set_default_provider "missing"` raises the
not-registered `KeyError`. -/
theorem registry_default_invariant_witness :
    register_provider "x" (.sqlite (create_sqlite_provider "/tmp/x.db")) true
        initialRegistry =
      .ok { _PROVIDERS := dictSet initialRegistry._PROVIDERS "x"
              (.sqlite (create_sqlite_provider "/tmp/x.db")),
            _DEFAULT_PROVIDER := "x" } ∧
    set_default_provider "missing" initialRegistry =
      .error (.keyError ("Provider not registered: " ++ "missing")) :=
  ⟨(registry_default_invariant.1 "x" _ initialRegistry).1,
   registry_default_invariant.2.1 "missing" initialRegistry (by decide)⟩

/-- C7: constructing either stub backend always raises
`NotImplementedError` with a message naming the missing driver
(`psycopg2` resp. `mysql-connector-python`), and `get_connection_info` on
the (partially initialised) object still returns the host/port/database/
user metadata without any connection. -/
theorem stub_constructors_raise :
    ∀ (host : String) (port : Nat) (database user password : String),
      (PostgreSQLProvider.init host port database user password).2 =
        .error (.notImplementedError
          "PostgreSQL provider not yet implemented. Install psycopg2 and implement connection logic.") ∧
      (DBProvider.postgresql
          (PostgreSQLProvider.init host port database user password).1).get_connection_info =
        { type := "postgresql", host := some host, port := some port,
          database := some database, user := some user } ∧
      (MySQLProvider.init host port database user password).2 =
        .error (.notImplementedError
          "MySQL provider not yet implemented. Install mysql-connector-python and implement connection logic.") ∧
      (DBProvider.mysql
          (MySQLProvider.init host port database user password).1).get_connection_info =
        { type := "mysql", host := some host, port := some port,
          database := some database, user := some user } := by
  intro host port database user password
  exact ⟨rfl, rfl, rfl, rfl⟩

/-- C9: on the SQLite backend, `connect` is idempotent — a second
`connect` on an open backend returns the same live handle and the same
backend state, without reopening — and `close` is idempotent and leaves
the backend in the closed state (safe whether or not a connection was
ever opened). -/
theorem connect_close_idempotent :
    ∀ (p : SQLiteProvider) (disk disk2 : DBState),
      ((p.connect disk).2).connect disk2 =
        ((p.connect disk).1, (p.connect disk).2) ∧
      (p.close).close = p.close ∧
      (p.close)._connection = none ∧
      (p.close).db_path = p.db_path := by
  intro p disk disk2
  cases h : p._connection <;>
    simp [SQLiteProvider.connect, SQLiteProvider.close, h]

/-- C2: the scoped connection wrapper `get_connection` commits the pending
transaction when the operation returns normally; when the operation
raises it rolls back — the committed (persisted) state is exactly what
was committed when the connection was acquired — and re-raises the same
exception; in both cases the connection is kept open at scope exit and a
subsequent `connect` reuses it unchanged. -/
theorem get_connection_commit_rollback :
    ∀ {α : Type} (p : SQLiteProvider) (disk : DBState)
      (op : Conn → Except DBError (α × Conn)),
      (∀ (a : α) (c : Conn), op (p.connect disk).1 = .ok (a, c) →
        (p.get_connection disk op).1 = .ok a ∧
        (p.get_connection disk op).2._connection = some c.commit ∧
        ((p.get_connection disk op).2._connection.map Conn.committed) =
          some c.pending) ∧
      (∀ (e : DBError), op (p.connect disk).1 = .error e →
        (p.get_connection disk op).1 = .error e ∧
        ((p.get_connection disk op).2._connection.map Conn.committed) =
          some (p.connect disk).1.committed ∧
        ((p.get_connection disk op).2._connection.map Conn.pending) =
          some (p.connect disk).1.committed) ∧
      ((p.get_connection disk op).2._connection.isSome = true) ∧
      (∀ disk2 : DBState,
        ((p.get_connection disk op).2.connect disk2).2 =
          (p.get_connection disk op).2) := by
  intro α p disk op
  refine ⟨?_, ?_, ?_, ?_⟩
  · intro a c hop
    simp [SQLiteProvider.get_connection, hop, Conn.commit]
  · intro e hop
    simp [SQLiteProvider.get_connection, hop, Conn.rollback]
  · cases hop : op (p.connect disk).1 with
    | ok ac =>
      obtain ⟨a, c⟩ := ac
      simp [SQLiteProvider.get_connection, hop]
    | error e =>
      simp [SQLiteProvider.get_connection, hop]
  · intro disk2
    have hconn : ∀ (q : SQLiteProvider) (c : Conn), q._connection = some c →
        q.connect disk2 = (c, q) := by
      intro q c h
      simp [SQLiteProvider.connect, h]
    cases hop : op (p.connect disk).1 with
    | ok ac =>
      obtain ⟨a, c⟩ := ac
      have h2 : (p.get_connection disk op).2._connection = some c.commit := by
        simp [SQLiteProvider.get_connection, hop]
      rw [hconn _ _ h2]
    | error e =>
      have h2 : (p.get_connection disk op).2._connection =
          some (p.connect disk).1.rollback := by
        simp [SQLiteProvider.get_connection, hop]
      rw [hconn _ _ h2]

/-- Witness for C2: a normal operation's result is returned (committed),
a raising operation's error is re-raised, on a concrete fresh backend. -/
theorem get_connection_commit_rollback_witness :
    ((SQLiteProvider.init "/tmp/w.db").get_connection DBState.empty
        (fun c => .ok (7, c))).1 = .ok 7 ∧
    ((SQLiteProvider.init "/tmp/w.db").get_connection DBState.empty
        (fun _ => (.error (.valueError "boom") :
          Except DBError (Nat × Conn)))).1 = .error (.valueError "boom") :=
  ⟨((get_connection_commit_rollback (SQLiteProvider.init "/tmp/w.db")
      DBState.empty (fun c => .ok (7, c))).1 7
      ((SQLiteProvider.init "/tmp/w.db").connect DBState.empty).1 rfl).1,
   ((get_connection_commit_rollback (SQLiteProvider.init "/tmp/w.db")
      DBState.empty (fun _ => (.error (.valueError "boom") :
        Except DBError (Nat × Conn)))).2.1 (.valueError "boom") rfl).1⟩

/-- C8: the factory constructs the backend matching the (lowercased)
`type`; a stub type's constructor failure (`NotImplementedError`)
propagates unchanged; an unrecognised or absent type raises
`ValueError`. -/
theorem create_provider_from_config_spec :
    (∀ (c : ProviderConfig) (path : String),
      pyLower (c.type.getD "") = "sqlite" → c.db_path = some path →
      create_provider_from_config c =
        .ok (.sqlite (SQLiteProvider.init path (c.auto_create_dir.getD true)))) ∧
    (∀ (c : ProviderConfig) (h d u pw : String),
      pyLower (c.type.getD "") = "postgresql" →
      c.host = some h → c.database = some d → c.user = some u →
      c.password = some pw →
      create_provider_from_config c =
        .error (.notImplementedError
          "PostgreSQL provider not yet implemented. Install psycopg2 and implement connection logic.")) ∧
    (∀ (c : ProviderConfig) (h d u pw : String),
      pyLower (c.type.getD "") = "mysql" →
      c.host = some h → c.database = some d → c.user = some u →
      c.password = some pw →
      create_provider_from_config c =
        .error (.notImplementedError
          "MySQL provider not yet implemented. Install mysql-connector-python and implement connection logic.")) ∧
    (∀ (c : ProviderConfig),
      pyLower (c.type.getD "") ≠ "sqlite" →
      pyLower (c.type.getD "") ≠ "postgresql" →
      pyLower (c.type.getD "") ≠ "mysql" →
      create_provider_from_config c =
        .error (.valueError
          ("Unknown provider type: " ++ pyLower (c.type.getD "")))) ∧
    (∀ (c : ProviderConfig), c.type = none →
      create_provider_from_config c =
        .error (.valueError ("Unknown provider type: " ++ ""))) := by
  refine ⟨?_, ?_, ?_, ?_, ?_⟩
  · intro c path h1 h2
    simp [create_provider_from_config, h1, h2]
  · intro c h d u pw h1 hh hd hu hpw
    simp [create_provider_from_config, h1, hh, hd, hu, hpw,
      PostgreSQLProvider.init]
  · intro c h d u pw h1 hh hd hu hpw
    simp [create_provider_from_config, h1, hh, hd, hu, hpw,
      MySQLProvider.init]
  · intro c h1 h2 h3
    simp [create_provider_from_config, h1, h2, h3]
  · intro c h
    have h1 : pyLower "" = "" := by decide
    simp [create_provider_from_config, h, h1]

/-- Witness for C8: `"SQLite"` (mixed case) builds the SQLite backend,
`"postgresql"` surfaces the stub's `NotImplementedError`, `"mysql"`
likewise, `"nosql"` and an absent type raise `ValueError`. -/
theorem create_provider_from_config_spec_witness :
    create_provider_from_config
        { type := some "SQLite", db_path := some "/tmp/c.db" } =
      .ok (.sqlite (SQLiteProvider.init "/tmp/c.db" true)) ∧
    create_provider_from_config
        { type := some "postgresql", host := some "h", database := some "d",
          user := some "u", password := some "p" } =
      .error (.notImplementedError
        "PostgreSQL provider not yet implemented. Install psycopg2 and implement connection logic.") ∧
    create_provider_from_config
        { type := some "mysql", host := some "h", database := some "d",
          user := some "u", password := some "p" } =
      .error (.notImplementedError
        "MySQL provider not yet implemented. Install mysql-connector-python and implement connection logic.") ∧
    create_provider_from_config { type := some "nosql" } =
      .error (.valueError ("Unknown provider type: " ++ pyLower "nosql")) ∧
    create_provider_from_config {} =
      .error (.valueError ("Unknown provider type: " ++ "")) :=
  ⟨create_provider_from_config_spec.1 _ "/tmp/c.db" (by decide) rfl,
   create_provider_from_config_spec.2.1 _ "h" "d" "u" "p" (by decide)
     rfl rfl rfl rfl,
   create_provider_from_config_spec.2.2.1 _ "h" "d" "u" "p" (by decide)
     rfl rfl rfl rfl,
   create_provider_from_config_spec.2.2.2.1 _ (by decide) (by decide)
     (by decide),
   create_provider_from_config_spec.2.2.2.2 _ rfl⟩

/-- C5: `get_session_state` never fails on an unknown user: with no
session row for `U` it returns the default record carrying `U` and every
optional field (including `updated_at`) absent; with a row present it
returns that row's values. -/
theorem get_session_state_default :
    (∀ (U : String) (db : DBState),
      (∀ r ∈ db.sessions, r.user_id ≠ U) →
      get_session_state U db =
        { user_id := U, state := none, incident_type := none,
          emotion := none, updated_at := none }) ∧
    (∀ (U : String) (db : DBState) (r : SessionRow),
      db.sessions.find? (fun x => x.user_id == U) = some r →
      get_session_state U db =
        { user_id := r.user_id, state := r.state,
          incident_type := r.incident_type, emotion := r.emotion,
          updated_at := some r.updated_at }) := by
  constructor
  · intro U db h
    have hf : db.sessions.find? (fun x => x.user_id == U) = none := by
      rw [List.find?_eq_none]
      intro x hx
      simpa using h x hx
    simp [get_session_state, hf]
  · intro U db r hf
    simp [get_session_state, hf]

/-- Witness for C5: the empty database yields the all-absent default
record; a database holding a session row for `"u"` yields that row's
values. -/
theorem get_session_state_default_witness :
    get_session_state "u" DBState.empty =
      { user_id := "u", state := none, incident_type := none,
        emotion := none, updated_at := none } ∧
    get_session_state "u"
        { messages := [], nextMessageId := 1,
          sessions := [{ user_id := "u", state := some "calm",
                         incident_type := none, emotion := some "calm",
                         updated_at := 5 }] } =
      { user_id := "u", state := some "calm", incident_type := none,
        emotion := some "calm", updated_at := some 5 } :=
  ⟨get_session_state_default.1 "u" DBState.empty (by simp [DBState.empty]),
   get_session_state_default.2 "u"
     { messages := [], nextMessageId := 1,
       sessions := [{ user_id := "u", state := some "calm",
                      incident_type := none, emotion := some "calm",
                      updated_at := 5 }] }
     { user_id := "u", state := some "calm", incident_type := none,
       emotion := some "calm", updated_at := 5 } (by decide)⟩

theorem msgOrder_trans {a b c : MessageRow} (h1 : msgOrder a b)
    (h2 : msgOrder b c) : msgOrder a c := by
  unfold msgOrder at h1 h2 ⊢
  rcases h1 with h1 | ⟨h1e, h1i⟩ <;> rcases h2 with h2 | ⟨h2e, h2i⟩
  · exact Or.inl (Nat.lt_trans h1 h2)
  · exact Or.inl (lt_of_lt_of_le h1 (Nat.le_of_eq h2e))
  · exact Or.inl (lt_of_le_of_lt (Nat.le_of_eq h1e) h2)
  · exact Or.inr ⟨h1e.trans h2e, Nat.lt_trans h1i h2i⟩

theorem mem_orderedInsertBy {α : Type} (le : α → α → Bool) (a x : α)
    (l : List α) : x ∈ orderedInsertBy le a l ↔ x = a ∨ x ∈ l := by
  induction l with
  | nil => simp [orderedInsertBy]
  | cons b t ih =>
    by_cases h : le a b
    · simp [orderedInsertBy, h]
    · simp [orderedInsertBy, h, ih]
      tauto

theorem mem_stableSortBy {α : Type} (le : α → α → Bool) (x : α)
    (l : List α) : x ∈ stableSortBy le l ↔ x ∈ l := by
  induction l with
  | nil => simp [stableSortBy]
  | cons a t ih =>
    simp [stableSortBy, mem_orderedInsertBy, ih]

theorem pairwise_orderedInsertBy_msgOrder (a : MessageRow)
    (t : List MessageRow) (hp : t.Pairwise msgOrder)
    (hid : ∀ b ∈ t, a.id < b.id) :
    (orderedInsertBy msgLe a t).Pairwise msgOrder := by
  induction t with
  | nil => simp [orderedInsertBy]
  | cons b t ih =>
    rw [List.pairwise_cons] at hp
    obtain ⟨hb, ht⟩ := hp
    by_cases h : msgLe a b
    · unfold orderedInsertBy
      rw [if_pos h]
      have hcb : a.created_at ≤ b.created_at := by simpa [msgLe] using h
      have hib : a.id < b.id := hid b (List.mem_cons_self b t)
      have hab : msgOrder a b := by
        unfold msgOrder
        rcases Nat.lt_or_ge a.created_at b.created_at with hlt | hge
        · exact Or.inl hlt
        · exact Or.inr ⟨Nat.le_antisymm hcb hge, hib⟩
      refine List.Pairwise.cons ?_ (List.Pairwise.cons hb ht)
      intro x hx
      rcases List.mem_cons.mp hx with rfl | hx'
      · exact hab
      · exact msgOrder_trans hab (hb x hx')
    · unfold orderedInsertBy
      rw [if_neg h]
      have hcb : b.created_at < a.created_at := by
        have h' : ¬a.created_at ≤ b.created_at := by simpa [msgLe] using h
        exact not_le.mp h'
      have hba : msgOrder b a := Or.inl hcb
      refine List.Pairwise.cons ?_
        (ih ht (fun x hx => hid x (List.mem_cons_of_mem b hx)))
      intro x hx
      rcases (mem_orderedInsertBy msgLe a x t).mp hx with rfl | hx'
      · exact hba
      · exact hb x hx'

theorem pairwise_stableSortBy_msgOrder (l : List MessageRow)
    (hid : l.Pairwise (fun a b => a.id < b.id)) :
    (stableSortBy msgLe l).Pairwise msgOrder := by
  induction l with
  | nil => simp [stableSortBy]
  | cons a t ih =>
    rw [List.pairwise_cons] at hid
    obtain ⟨ha, ht⟩ := hid
    unfold stableSortBy
    exact pairwise_orderedInsertBy_msgOrder a _ (ih ht)
      (fun b hb => ha b ((mem_stableSortBy msgLe b t).mp hb))

theorem upsertSession_sessions_pos (db : DBState) (r : SessionRow)
    (hany : db.sessions.any (fun x => x.user_id == r.user_id) = true) :
    (upsertSession r db).sessions =
      db.sessions.map (fun x => if x.user_id == r.user_id then r else x) := by
  simp [upsertSession, hany]

theorem upsertSession_sessions_neg (db : DBState) (r : SessionRow)
    (hany : ¬db.sessions.any (fun x => x.user_id == r.user_id) = true) :
    (upsertSession r db).sessions = db.sessions ++ [r] := by
  simp [upsertSession, hany]

theorem countP_map_replace (l : List SessionRow) (r : SessionRow)
    (u : String) :
    (l.map (fun x => if x.user_id == r.user_id then r else x)).countP
        (fun x => x.user_id == u) =
      l.countP (fun x => x.user_id == u) := by
  induction l with
  | nil => rfl
  | cons a t ih =>
    rw [List.map_cons, List.countP_cons, List.countP_cons, ih]
    by_cases h : a.user_id = r.user_id
    · simp [h]
    · simp [h]

theorem countP_upsertSession (db : DBState) (r : SessionRow)
    (h : SessionsUnique db.sessions) :
    (upsertSession r db).sessions.countP
        (fun x => x.user_id == r.user_id) = 1 := by
  by_cases hany : db.sessions.any (fun x => x.user_id == r.user_id) = true
  · rw [upsertSession_sessions_pos db r hany, countP_map_replace]
    have h1 : 0 < db.sessions.countP (fun x => x.user_id == r.user_id) := by
      rw [List.countP_pos_iff]
      simpa [List.any_eq_true] using hany
    have h2 := h r.user_id
    omega
  · rw [upsertSession_sessions_neg db r hany]
    have h0 : db.sessions.countP (fun x => x.user_id == r.user_id) = 0 := by
      rw [List.countP_eq_zero]
      intro a ha hc
      exact hany (List.any_eq_true.mpr ⟨a, ha, hc⟩)
    simp [List.countP_append, h0, List.countP_cons]

theorem sessionsUnique_upsertSession (db : DBState) (r : SessionRow)
    (h : SessionsUnique db.sessions) :
    SessionsUnique (upsertSession r db).sessions := by
  intro u
  by_cases hany : db.sessions.any (fun x => x.user_id == r.user_id) = true
  · rw [upsertSession_sessions_pos db r hany, countP_map_replace]
    exact h u
  · rw [upsertSession_sessions_neg db r hany]
    have h0 : db.sessions.countP (fun x => x.user_id == r.user_id) = 0 := by
      rw [List.countP_eq_zero]
      intro a ha hc
      exact hany (List.any_eq_true.mpr ⟨a, ha, hc⟩)
    by_cases hu : r.user_id = u
    · subst hu
      simp [List.countP_append, h0, List.countP_cons]
    · have := h u
      simp [List.countP_append, List.countP_cons, hu]
      omega

theorem any_upsertSession (db : DBState) (r : SessionRow) :
    (upsertSession r db).sessions.any
      (fun x => x.user_id == r.user_id) = true := by
  by_cases hany : db.sessions.any (fun x => x.user_id == r.user_id) = true
  · rw [upsertSession_sessions_pos db r hany]
    rw [List.any_eq_true] at hany ⊢
    obtain ⟨x, hx, hxe⟩ := hany
    exact ⟨r, List.mem_map.mpr ⟨x, hx, by simp [hxe]⟩, by simp⟩
  · rw [upsertSession_sessions_neg db r hany]
    simp

theorem find?_map_replace (l : List SessionRow) (r : SessionRow)
    (hany : l.any (fun x => x.user_id == r.user_id) = true) :
    (l.map (fun x => if x.user_id == r.user_id then r else x)).find?
        (fun x => x.user_id == r.user_id) = some r := by
  induction l with
  | nil => cases hany
  | cons a t ih =>
    rw [List.map_cons]
    by_cases h : (a.user_id == r.user_id) = true
    · have hif : (if a.user_id == r.user_id then r else a) = r := by
        simp [h]
      rw [hif, List.find?_cons_of_pos _ (by simp)]
    · have hif : (if a.user_id == r.user_id then r else a) = a := by
        simp [h]
      rw [hif, List.find?_cons_of_neg _ (by simpa using h)]
      exact ih (by simpa [h] using hany)

theorem foldl_set_session_state_unique (U : String)
    (calls : List (Option String × Option String × Option String × Timestamp))
    (db : DBState) (h : SessionsUnique db.sessions) :
    SessionsUnique
      (calls.foldl
        (fun d c => set_session_state U c.1 c.2.1 c.2.2.1 c.2.2.2 d)
        db).sessions ∧
    (calls ≠ [] →
      (calls.foldl
        (fun d c => set_session_state U c.1 c.2.1 c.2.2.1 c.2.2.2 d)
        db).sessions.countP (fun x => x.user_id == U) = 1) := by
  induction calls generalizing db with
  | nil => exact ⟨h, fun hc => absurd rfl hc⟩
  | cons c cs ih =>
    have h1 : SessionsUnique
        (set_session_state U c.1 c.2.1 c.2.2.1 c.2.2.2 db).sessions :=
      sessionsUnique_upsertSession db _ h
    obtain ⟨hu, hcnt⟩ := ih _ h1
    refine ⟨hu, ?_⟩
    intro _
    cases cs with
    | nil =>
      exact countP_upsertSession db
        { user_id := U, state := c.1, incident_type := c.2.1,
          emotion := c.2.2.1, updated_at := c.2.2.2 } h
    | cons c2 cs2 => exact hcnt (by simp)

/-- C3: `set_session_state` is a full-replace upsert keyed on `user_id`:
starting from any table satisfying the primary-key invariant, any
nonempty sequence of calls for user `U` leaves exactly one session row
for `U`; and after two consecutive calls, `get_session_state` returns the
second call's values for every field — a field passed as `none` (omitted
in Python) in the second call is stored absent, not carried over. -/
theorem set_session_state_full_replace :
    (∀ (U : String) (db : DBState)
       (calls :
         List (Option String × Option String × Option String × Timestamp)),
      SessionsUnique db.sessions → calls ≠ [] →
      (calls.foldl
        (fun d c => set_session_state U c.1 c.2.1 c.2.2.1 c.2.2.2 d)
        db).sessions.countP (fun x => x.user_id == U) = 1) ∧
    (∀ (U : String) (db : DBState) (s1 i1 e1 : Option String)
       (t1 : Timestamp) (s2 i2 e2 : Option String) (t2 : Timestamp),
      get_session_state U
          (set_session_state U s2 i2 e2 t2
            (set_session_state U s1 i1 e1 t1 db)) =
        { user_id := U, state := s2, incident_type := i2, emotion := e2,
          updated_at := some t2 }) := by
  constructor
  · intro U db calls h hne
    exact (foldl_set_session_state_unique U calls db h).2 hne
  · intro U db s1 i1 e1 t1 s2 i2 e2 t2
    have hany : (set_session_state U s1 i1 e1 t1 db).sessions.any
        (fun x => x.user_id == U) = true := any_upsertSession db _
    have hfind :
        (set_session_state U s2 i2 e2 t2
            (set_session_state U s1 i1 e1 t1 db)).sessions.find?
          (fun x => x.user_id == U) =
          some { user_id := U, state := s2, incident_type := i2,
                 emotion := e2, updated_at := t2 } := by
      have hm := upsertSession_sessions_pos
        (set_session_state U s1 i1 e1 t1 db)
        { user_id := U, state := s2, incident_type := i2, emotion := e2,
          updated_at := t2 } hany
      rw [set_session_state, hm]
      exact find?_map_replace (set_session_state U s1 i1 e1 t1 db).sessions
        { user_id := U, state := s2, incident_type := i2, emotion := e2,
          updated_at := t2 } hany
    simp [get_session_state, hfind]

/-- Witness for C3: two concrete calls for `"u"` on the empty database
leave one row, and the read-back record carries exactly the second
call's values with the omitted `incident_type` absent. -/
theorem set_session_state_full_replace_witness :
    (([(some "charged", none, some "angry", 1),
       (some "calm", none, some "calm", 2)] :
      List (Option String × Option String × Option String × Timestamp)).foldl
        (fun d c => set_session_state "u" c.1 c.2.1 c.2.2.1 c.2.2.2 d)
        DBState.empty).sessions.countP (fun x => x.user_id == "u") = 1 ∧
    get_session_state "u"
        (set_session_state "u" (some "calm") none (some "calm") 2
          (set_session_state "u" (some "charged") none (some "angry") 1
            DBState.empty)) =
      { user_id := "u", state := some "calm", incident_type := none,
        emotion := some "calm", updated_at := some 2 } :=
  ⟨set_session_state_full_replace.1 "u" DBState.empty _
    (fun u => by simp [DBState.empty]) (by simp),
   set_session_state_full_replace.2 "u" DBState.empty
     (some "charged") none (some "angry") 1 (some "calm") none (some "calm") 2⟩

/-- C4: `get_history U L` returns only `U`'s messages, ordered by
`created_at` ascending with ties broken by insertion/id order (under the
AUTOINCREMENT invariant that table ids strictly increase in scan order),
capped at `L` rows; a user with no messages gets the empty list, not an
error. -/
theorem get_history_spec :
    ∀ (U : String) (L : Nat) (db : DBState),
      db.messages.Pairwise (fun a b => a.id < b.id) →
      (∀ m ∈ get_history U L db, m.user_id = U) ∧
      (get_history U L db).Pairwise msgOrder ∧
      (get_history U L db).length ≤ L ∧
      ((∀ m ∈ db.messages, m.user_id ≠ U) → get_history U L db = []) := by
  intro U L db hid
  refine ⟨?_, ?_, ?_, ?_⟩
  · intro m hm
    simp only [get_history] at hm
    have hm1 := List.mem_of_mem_take hm
    have hm2 := (mem_stableSortBy msgLe m _).mp hm1
    have := (List.mem_filter.mp hm2).2
    simpa using this
  · simp only [get_history]
    apply List.Pairwise.sublist (List.take_sublist _ _)
    exact pairwise_stableSortBy_msgOrder _ (List.Pairwise.filter _ hid)
  · simp only [get_history]
    exact List.length_take_le _ _
  · intro hnone
    have hf : db.messages.filter (fun m => m.user_id == U) = [] := by
      rw [List.filter_eq_nil_iff]
      intro m hm
      simpa using hnone m hm
    simp [get_history, hf, stableSortBy]

/-- Witness for C4 on a concrete three-message table (two users, a
`created_at` tie between ids 1 and 3): the cap holds, the result is
ordered with the tie broken by id, and a user with no messages gets
`[]`. -/
theorem get_history_spec_witness :
    (get_history "u" 2
        { messages :=
            [{ id := 1, user_id := "u", role := "user", content := "hi",
               created_at := 5 },
             { id := 2, user_id := "v", role := "user", content := "yo",
               created_at := 4 },
             { id := 3, user_id := "u", role := "assistant",
               content := "hello", created_at := 5 }],
          nextMessageId := 4, sessions := [] }).length ≤ 2 ∧
    (get_history "u" 2
        { messages :=
            [{ id := 1, user_id := "u", role := "user", content := "hi",
               created_at := 5 },
             { id := 2, user_id := "v", role := "user", content := "yo",
               created_at := 4 },
             { id := 3, user_id := "u", role := "assistant",
               content := "hello", created_at := 5 }],
          nextMessageId := 4, sessions := [] }).Pairwise msgOrder ∧
    get_history "w" 2
        { messages :=
            [{ id := 1, user_id := "u", role := "user", content := "hi",
               created_at := 5 },
             { id := 2, user_id := "v", role := "user", content := "yo",
               created_at := 4 },
             { id := 3, user_id := "u", role := "assistant",
               content := "hello", created_at := 5 }],
          nextMessageId := 4, sessions := [] } = [] := by
  refine ⟨?_, ?_, ?_⟩
  · exact (get_history_spec "u" 2 _ (by decide)).2.2.1
  · exact (get_history_spec "u" 2 _ (by decide)).2.1
  · exact (get_history_spec "w" 2 _ (by decide)).2.2.2 (by decide)

end Aila
